import Mathlib

/-!
Verification of the authentication/session subsystem of the template-marketplace
backend (FastAPI + MongoDB).  The Python sources under `backend/app` are shallowly
embedded: MongoDB ObjectIds are modelled as `String` (so `str(oid)` is the
identity), timestamps as `Nat` seconds, the JWT codec symbolically (a signed
token is its payload paired with the signing secret; signature verification
succeeds exactly when the secrets coincide), and the bcrypt hash as an injective
tagging function.  Each service/endpoint function is translated clause by clause
from `app/core/security.py`, `app/services/auth_service.py`, `app/api/auth.py`
and `app/middleware/premium.py`.
-/

namespace Templater

/-! ## Configuration (`app/core/config.py`, class `Settings`) -/

structure Settings where
  JWT_SECRET_KEY : String
  JWT_REFRESH_SECRET_KEY : String
  ACCESS_TOKEN_EXPIRE_MINUTES : Nat := 30
  REFRESH_TOKEN_EXPIRE_DAYS : Nat := 7
deriving DecidableEq, Repr

/-! ## Token codec (`app/core/security.py`)

A JWT payload holds the claims this codebase ever encodes: `user_id`, `role`,
`email` (each optional, as `dict.get` returns), the `type` tag, and the `exp`
timestamp in seconds. -/

structure JwtPayload where
  user_id : Option String := none
  role : Option String := none
  email : Option String := none
  type : Option String := none
  exp : Nat := 0
deriving DecidableEq, Repr

/-- Symbolic signed token: `jwt.encode(payload, secret)` is modelled as the
payload paired with the signing secret. -/
structure Jwt where
  payload : JwtPayload
  secret : String
deriving DecidableEq, Repr

/-- Input to `jwt.decode`: either a string that is not a well-formed signed
token at all, or a well-formed one. -/
inductive TokenInput where
  | malformed (raw : String)
  | wellFormed (jwt : Jwt)
deriving DecidableEq, Repr

/-- Error cases raised by `jose.jwt.decode`; all are subclasses of `JWTError`. -/
inductive JWTError where
  | malformed
  | badSignature
  | expired
deriving DecidableEq, Repr

/-- Model of `jose.jwt.decode(token, secret, algorithms)`: raises on a
malformed token, a signature produced with a different secret, or an expired
`exp` claim (jose rejects when `exp < now`); otherwise returns the payload. -/
def jwtDecode (token : TokenInput) (secret_key : String) (now : Nat) :
    Except JWTError JwtPayload :=
  match token with
  | .malformed _ => .error .malformed
  | .wellFormed j =>
    if j.secret ≠ secret_key then .error .badSignature
    else if j.payload.exp < now then .error .expired
    else .ok j.payload

/-- Port of `create_access_token(data, expires_delta)`: overrides `exp` and
`type` on a copy of the claims and signs with `JWT_SECRET_KEY`. -/
def create_access_token (data : JwtPayload) (expires_delta : Option Nat)
    (now : Nat) (s : Settings) : Jwt :=
  let expire := match expires_delta with
    | some delta => now + delta
    | none => now + s.ACCESS_TOKEN_EXPIRE_MINUTES * 60
  ⟨{ data with exp := expire, type := some "access" }, s.JWT_SECRET_KEY⟩

/-- Port of `create_refresh_token(data)`: `exp = now + REFRESH_TOKEN_EXPIRE_DAYS`
days, `type = "refresh"`, signed with `JWT_REFRESH_SECRET_KEY`. -/
def create_refresh_token (data : JwtPayload) (now : Nat) (s : Settings) : Jwt :=
  let expire := now + s.REFRESH_TOKEN_EXPIRE_DAYS * 86400
  ⟨{ data with exp := expire, type := some "refresh" }, s.JWT_REFRESH_SECRET_KEY⟩

/-- Port of `verify_token(token, secret_key)`: calls `jwt.decode` and returns
`None` on any `JWTError`. -/
def verify_token (token : TokenInput) (secret_key : String) (now : Nat) :
    Option JwtPayload :=
  match jwtDecode token secret_key now with
  | .ok payload => some payload
  | .error _ => none

/-- Port of `create_verification_token(email)`: `type = "verification"`,
24-hour expiry, signed with `JWT_SECRET_KEY`. -/
def create_verification_token (email : String) (now : Nat) (s : Settings) : Jwt :=
  ⟨{ email := some email, type := some "verification", exp := now + 86400 },
   s.JWT_SECRET_KEY⟩

/-- Port of `create_reset_token(email)`: `type = "reset"`, 1-hour expiry,
signed with `JWT_SECRET_KEY`. -/
def create_reset_token (email : String) (now : Nat) (s : Settings) : Jwt :=
  ⟨{ email := some email, type := some "reset", exp := now + 3600 },
   s.JWT_SECRET_KEY⟩

end Templater

namespace Templater

/-! ## Password hashing (`app/core/security.py`, `pwd_context`)

Bcrypt is modelled symbolically by an injective tagging function; what the
claims need is only that `verify_password plain hashed` decides whether
`hashed` is the hash of `plain`. -/

def get_password_hash (password : String) : String :=
  "bcrypt2b12$" ++ password

def verify_password (plain_password : String) (hashed_password : String) : Bool :=
  hashed_password == get_password_hash plain_password

/-! ## Device sniffing (`app/core/security.py`, `get_device_info`) -/

/-- Decides whether `needle` occurs as a contiguous substring of `haystack`
(model of the Python `in` operator on strings). -/
def substrIn (needle : List Char) : List Char → Bool
  | [] => needle.isEmpty
  | c :: rest => needle.isPrefixOf (c :: rest) || substrIn needle rest

def strContains (haystack needle : String) : Bool :=
  substrIn needle.data haystack.data

structure DeviceInfo where
  user_agent : String
  browser : String
  os : String
  device : String
deriving DecidableEq, Repr

/-- Port of `get_device_info(user_agent)`: best-effort substring matching on
the lower-cased user-agent string. -/
def get_device_info (user_agent : String) : DeviceInfo :=
  let ua := user_agent.toLower
  let browser :=
    if strContains ua "chrome" then "Chrome"
    else if strContains ua "firefox" then "Firefox"
    else if strContains ua "safari" then "Safari"
    else if strContains ua "edge" then "Edge"
    else "Unknown"
  let os :=
    if strContains ua "windows" then "Windows"
    else if strContains ua "mac" then "macOS"
    else if strContains ua "linux" then "Linux"
    else if strContains ua "android" then "Android"
    else if strContains ua "ios" then "iOS"
    else "Unknown"
  let device :=
    if strContains ua "mobile" || strContains ua "android" || strContains ua "iphone"
    then "Mobile"
    else if strContains ua "tablet" || strContains ua "ipad" then "Tablet"
    else "Desktop"
  ⟨user_agent, browser, os, device⟩

/-! ## Data model (`app/models/user.py`, `app/models/session.py`)

ObjectIds are modelled as strings, so the `str(...)` conversions in the
service layer are the identity. -/

structure User where
  id : String
  email : String
  hashed_password : String
  first_name : String := ""
  last_name : String := ""
  role : String := "user"
  is_active : Bool := true
  is_verified : Bool := false
  is_premium : Bool := false
  verification_token : Option Jwt := none
  verification_token_expires : Option Nat := none
  created_at : Nat := 0
  updated_at : Nat := 0
deriving DecidableEq, Repr

structure Session where
  id : String
  user_id : String
  device_info : DeviceInfo
  ip_address : Option String := none
  is_active : Bool := true
  last_activity : Nat := 0
  created_at : Nat := 0
  updated_at : Nat := 0
deriving DecidableEq, Repr

structure AuthToken where
  id : String
  session_id : String
  access_token : Jwt
  refresh_token : Jwt
  expires_at : Nat
  is_active : Bool := true
deriving DecidableEq, Repr

/-- The three MongoDB collections used by `AuthService`, plus a counter used
to mint fresh ObjectIds for inserts. -/
structure Store where
  users : List User := []
  sessions : List Session := []
  tokens : List AuthToken := []
  nextId : Nat := 0
deriving Repr

/-- Model of `update_one`: applies `f` to the first element satisfying `p`
(MongoDB updates at most one matching document). -/
def updateFirst (p : α → Bool) (f : α → α) : List α → List α
  | [] => []
  | x :: xs => if p x then f x :: xs else x :: updateFirst p f xs

/-- Model of `delete_one`: removes the first element satisfying `p`. -/
def deleteFirst (p : α → Bool) : List α → List α
  | [] => []
  | x :: xs => if p x then xs else x :: deleteFirst p xs

/-! ## HTTP error and response schemas (`fastapi.HTTPException`,
`app/schemas/auth.py`) -/

/-- Detail payload of an `HTTPException`: either a plain message string or the
structured dict raised by `PremiumAccessError`. -/
inductive ErrorDetail where
  | text (message : String)
  | payload (message : String) (action : String) (redirect_to : String)
deriving DecidableEq, Repr

structure HTTPError where
  status_code : Nat
  detail : ErrorDetail
deriving DecidableEq, Repr

structure UserDetailsResponse where
  id : String
  email : String
  first_name : String
  last_name : String
  role : String
  is_active : Bool
  is_verified : Bool
  is_premium : Bool := false
  created_at : Nat
  updated_at : Nat
deriving DecidableEq, Repr

structure AuthResponse where
  access_token : Jwt
  refresh_token : Jwt
  token_type : String := "bearer"
  expires_in : Nat
  user : UserDetailsResponse
deriving DecidableEq, Repr

structure MessageResponse where
  message : String
deriving DecidableEq, Repr

structure SessionStatsResponse where
  total_sessions : Nat
  active_sessions : Nat
  inactive_sessions : Nat
  sessions_by_device : List (String × Nat)
  sessions_by_browser : List (String × Nat)
deriving DecidableEq, Repr

/-- Constructor used by `signin` and `refresh_token` in `app/api/auth.py`:
both build `UserDetailsResponse` without passing `is_premium`, so the pydantic
default `False` applies. -/
def mkUserDetails (u : User) : UserDetailsResponse :=
  { id := u.id, email := u.email, first_name := u.first_name,
    last_name := u.last_name, role := u.role, is_active := u.is_active,
    is_verified := u.is_verified, created_at := u.created_at,
    updated_at := u.updated_at }

/-! ## AuthService (`app/services/auth_service.py`) -/

/-- Port of `AuthService.authenticate_user(email, password)`: `find_one` on
email, then bcrypt comparison; `None` hides whether the email exists or the
password mismatched. -/
def authenticate_user (st : Store) (email password : String) : Option User :=
  match st.users.find? (fun u => u.email == email) with
  | none => none
  | some u => if !verify_password password u.hashed_password then none else some u

/-- Port of `AuthService.get_user_by_id(user_id)` (`find_one` on `_id`). -/
def get_user_by_id (st : Store) (user_id : String) : Option User :=
  st.users.find? (fun u => u.id == user_id)

/-- Port of `AuthService.create_session(user_id, user_agent, ip_address)`:
re-reads the user to pick the role for the token claims, inserts a `Session`
row, mints the access/refresh pair, inserts an `AuthToken` row. -/
def create_session (st : Store) (user_id : String) (user_agent : String)
    (ip_address : Option String) (now : Nat) (s : Settings) :
    Store × Session × AuthToken :=
  let user := st.users.find? (fun u => u.id == user_id)
  let user_role := match user with
    | some u => u.role
    | none => "user"
  let device_info := get_device_info user_agent
  let session : Session :=
    { id := toString st.nextId, user_id := user_id, device_info := device_info,
      ip_address := ip_address, is_active := true, last_activity := now,
      created_at := now, updated_at := now }
  let token_data : JwtPayload := { user_id := some user_id, role := some user_role }
  let access_token := create_access_token token_data none now s
  let refresh_token := create_refresh_token token_data now s
  let auth_token : AuthToken :=
    { id := toString (st.nextId + 1), session_id := session.id,
      access_token := access_token, refresh_token := refresh_token,
      expires_at := now + s.ACCESS_TOKEN_EXPIRE_MINUTES * 60, is_active := true }
  let st2 : Store :=
    { users := st.users, sessions := st.sessions ++ [session],
      tokens := st.tokens ++ [auth_token], nextId := st.nextId + 2 }
  (st2, session, auth_token)

/-- Port of the `signin` endpoint (`app/api/auth.py`): authenticate, then the
`is_active` check, then the `is_verified` check, then session/token creation
and the `AuthResponse` with `expires_in = ACCESS_TOKEN_EXPIRE_MINUTES * 60`. -/
def signin (st : Store) (email password : String) (user_agent : String)
    (client_ip : Option String) (now : Nat) (s : Settings) :
    Except HTTPError (Store × AuthResponse) :=
  match authenticate_user st email password with
  | none => .error ⟨401, .text "Invalid email or password"⟩
  | some user =>
    if !user.is_active then .error ⟨401, .text "Account is deactivated"⟩
    else if !user.is_verified then
      .error ⟨401, .text "Email not verified. Please check your email for verification link."⟩
    else
      let res := create_session st user.id user_agent client_ip now s
      .ok (res.1,
        { access_token := res.2.2.access_token,
          refresh_token := res.2.2.refresh_token,
          token_type := "bearer",
          expires_in := s.ACCESS_TOKEN_EXPIRE_MINUTES * 60,
          user := mkUserDetails user })

/-- Port of `AuthService.verify_email(token)`: decode with the access secret,
require `type == "verification"`, look the user up by the embedded email,
reject an already-verified user, then set `is_verified` and clear the stored
verification-token fields on the first matching document (`update_one`).
Note the decoded token is never compared with `user.verification_token`. -/
def verify_email (st : Store) (token : TokenInput) (now : Nat) (s : Settings) :
    Except HTTPError Store :=
  match verify_token token s.JWT_SECRET_KEY now with
  | none => .error ⟨400, .text "Invalid verification token"⟩
  | some payload =>
    if payload.type ≠ some "verification" then
      .error ⟨400, .text "Invalid verification token"⟩
    else
      match st.users.find? (fun u => some u.email == payload.email) with
      | none => .error ⟨404, .text "User not found"⟩
      | some user =>
        if user.is_verified then .error ⟨400, .text "Email already verified"⟩
        else
          let clear := fun (u : User) => { u with is_verified := true, verification_token := none, verification_token_expires := none, updated_at := now }
          let users2 := updateFirst (fun u => some u.email == payload.email)
            clear st.users
          .ok { users := users2, sessions := st.sessions, tokens := st.tokens,
                nextId := st.nextId }

/-- Port of `AuthService.deactivate_session(session_id, user_id)`:
`update_one` on `{_id, user_id}` setting `is_active = False`; the returned
flag models `modified_count > 0` (a matching document exists; the update
always rewrites `updated_at`, so a match is a modification). -/
def deactivate_session (st : Store) (session_id user_id : String) (now : Nat) :
    Store × Bool :=
  let p := fun (sess : Session) => sess.id == session_id && sess.user_id == user_id
  let sessions2 := updateFirst p
    (fun sess => { sess with is_active := false, updated_at := now }) st.sessions
  ({ users := st.users, sessions := sessions2, tokens := st.tokens,
     nextId := st.nextId },
   st.sessions.any p)

/-- Port of `AuthService.deactivate_all_sessions(user_id)`: `update_many` on
`{user_id}` setting `is_active = False`. -/
def deactivate_all_sessions (st : Store) (user_id : String) (now : Nat) : Store :=
  let sessions2 := st.sessions.map (fun sess =>
    if sess.user_id == user_id then
      { sess with is_active := false, updated_at := now }
    else sess)
  { users := st.users, sessions := sessions2, tokens := st.tokens,
    nextId := st.nextId }

/-- Port of the `logout` endpoint (`app/api/auth.py`): deactivates all the
sessions of the current user and returns the success message (cookie clearing
is presentation-layer and not modelled). -/
def logout (st : Store) (current_user_id : String) (now : Nat) :
    Store × MessageResponse :=
  (deactivate_all_sessions st current_user_id now,
   ⟨"Logged out successfully"⟩)

/-- Port of `AuthService.delete_user_account(user_id)`: deactivate all
sessions, `delete_many` on auth tokens filtered by a `user_id` field (the
`AuthToken` documents carry no such field, so nothing matches and the token
collection is unchanged), `delete_many` sessions of the user, `delete_one`
the user document. -/
def delete_user_account (st : Store) (user_id : String) (now : Nat) :
    Store × Bool :=
  let st1 := deactivate_all_sessions st user_id now
  let sessions2 := st1.sessions.filter (fun sess => !(sess.user_id == user_id))
  let deleted := st1.users.any (fun u => u.id == user_id)
  let users2 := deleteFirst (fun u => u.id == user_id) st1.users
  ({ users := users2, sessions := sessions2, tokens := st1.tokens,
     nextId := st1.nextId },
   deleted)

/-- Record of one dispatched email; the body is modelled by the token embedded
in its link. -/
structure EmailMessage where
  to_email : String
  subject : String
  token : Option Jwt
deriving DecidableEq, Repr

/-- Port of `AuthService.forgot_password(email)`: if the email is unknown,
return `True` without revealing anything; otherwise mint a reset token
(1-hour TTL) and send the reset email, then return `True`. -/
def forgot_password (st : Store) (email : String) (now : Nat) (s : Settings) :
    Bool × List EmailMessage :=
  match st.users.find? (fun u => u.email == email) with
  | none => (true, [])
  | some _ =>
    let reset_token := create_reset_token email now s
    (true, [⟨email, "Password Reset Request", some reset_token⟩])

/-- Port of the `forgot_password` endpoint (`app/api/auth.py`): calls the
service and always returns the same `MessageResponse`. -/
def forgot_password_endpoint (st : Store) (email : String) (now : Nat)
    (s : Settings) : MessageResponse × List EmailMessage :=
  let res := forgot_password st email now s
  (⟨"If the email exists, a password reset link has been sent"⟩, res.2)

/-- Port of `AuthService.get_session_stats(user_id)`: the `$match`/`$group`
aggregation counting total/active/inactive sessions of the user, plus the
group-by-device and group-by-browser count breakdowns. -/
def get_session_stats (st : Store) (user_id : String) : SessionStatsResponse :=
  let user_sessions := st.sessions.filter (fun sess => sess.user_id == user_id)
  let total := user_sessions.length
  let active := (user_sessions.filter (fun sess => sess.is_active)).length
  let inactive := (user_sessions.filter (fun sess => !sess.is_active)).length
  let deviceKeys := (user_sessions.map (fun sess => sess.device_info.device)).dedup
  let by_device := deviceKeys.map (fun d =>
    (d, (user_sessions.filter (fun sess => sess.device_info.device == d)).length))
  let browserKeys := (user_sessions.map (fun sess => sess.device_info.browser)).dedup
  let by_browser := browserKeys.map (fun b =>
    (b, (user_sessions.filter (fun sess => sess.device_info.browser == b)).length))
  ⟨total, active, inactive, by_device, by_browser⟩

/-- Port of the `refresh_token` endpoint (`app/api/auth.py`): verify against
the refresh secret, require `type == "refresh"`, re-fetch the user by the
`user_id` claim, reject an absent or inactive user with the combined 401,
then mint a fresh access/refresh pair carrying the re-fetched user id and
role.  When the claim is missing, `ObjectId(None)` mints a fresh unique
ObjectId; a freshly minted id matches no stored document, so `get_user_by_id`
misses and the endpoint takes the same combined 401 branch. -/
def refresh_token_endpoint (st : Store) (token : TokenInput) (now : Nat)
    (s : Settings) : Except HTTPError AuthResponse :=
  match verify_token token s.JWT_REFRESH_SECRET_KEY now with
  | none => .error ⟨401, .text "Invalid refresh token"⟩
  | some payload =>
    if payload.type ≠ some "refresh" then
      .error ⟨401, .text "Invalid refresh token"⟩
    else
      match payload.user_id with
      | none => .error ⟨401, .text "User not found or inactive"⟩
      | some uid =>
        match get_user_by_id st uid with
        | none => .error ⟨401, .text "User not found or inactive"⟩
        | some user =>
          if !user.is_active then .error ⟨401, .text "User not found or inactive"⟩
          else
            let token_data : JwtPayload :=
              { user_id := some user.id, role := some user.role }
            .ok { access_token := create_access_token token_data none now s,
                  refresh_token := create_refresh_token token_data now s,
                  token_type := "bearer",
                  expires_in := s.ACCESS_TOKEN_EXPIRE_MINUTES * 60,
                  user := mkUserDetails user }

/-! ## Premium middleware (`app/middleware/premium.py`) -/

/-- Port of `PremiumAccessError`: status 402 with the structured detail dict. -/
def premiumAccessError : HTTPError :=
  ⟨402, .payload "Premium access required" "upgrade_required" "/payment"⟩

/-- Port of `require_premium_access(current_user)`: admins pass, then
non-premium users are rejected with `PremiumAccessError`. -/
def require_premium_access (current_user : UserDetailsResponse) :
    Except HTTPError UserDetailsResponse :=
  if current_user.role == "admin" then .ok current_user
  else if !current_user.is_premium then .error premiumAccessError
  else .ok current_user

end Templater

namespace Templater

/-- Shared concrete settings fixture used by witnesses: distinct access and
refresh secrets, the default TTLs from `app/core/config.py`. -/
def sFix : Settings := ⟨"access-secret", "refresh-secret", 30, 7⟩

/-- C3: a token issued by the access-token issuer (signed with the access
secret `JWT_SECRET_KEY`) fails verification against the refresh secret, and a
refresh token fails verification against the access secret, whenever the two
secrets differ; this holds for every claims dictionary, every expiry override,
and every verification time. -/
theorem cross_secret_rejection (data : JwtPayload) (expires_delta : Option Nat)
    (now now2 : Nat) (s : Settings)
    (h : s.JWT_SECRET_KEY ≠ s.JWT_REFRESH_SECRET_KEY) :
    verify_token (.wellFormed (create_access_token data expires_delta now s))
      s.JWT_REFRESH_SECRET_KEY now2 = none ∧
    verify_token (.wellFormed (create_refresh_token data now s))
      s.JWT_SECRET_KEY now2 = none := by
  constructor <;>
    simp [verify_token, jwtDecode, create_access_token, create_refresh_token,
      h, Ne.symm h]

/-- Witness for C3 at a concrete claims dictionary and settings pair with
distinct secrets. -/
theorem cross_secret_rejection_witness :
    verify_token
      (.wellFormed (create_access_token { user_id := some "u1", role := some "user" }
        none 0 ⟨"acc-secret", "ref-secret", 30, 7⟩))
      "ref-secret" 0 = none ∧
    verify_token
      (.wellFormed (create_refresh_token { user_id := some "u1", role := some "user" }
        0 ⟨"acc-secret", "ref-secret", 30, 7⟩))
      "acc-secret" 0 = none :=
  cross_secret_rejection { user_id := some "u1", role := some "user" } none 0 0
    ⟨"acc-secret", "ref-secret", 30, 7⟩ (by decide)

/-- C4: `verify_token` fails closed: a malformed token, a signature produced
with a different secret, and an expired token each yield `none` (the function
is total by construction, so no exception escapes to the caller; every
`JWTError` branch of the decoder is mapped to `none`). -/
theorem verify_token_fails_closed :
    (∀ (raw : String) (secret : String) (now : Nat),
      verify_token (.malformed raw) secret now = none) ∧
    (∀ (j : Jwt) (secret : String) (now : Nat), j.secret ≠ secret →
      verify_token (.wellFormed j) secret now = none) ∧
    (∀ (j : Jwt) (secret : String) (now : Nat), j.payload.exp < now →
      verify_token (.wellFormed j) secret now = none) ∧
    (∀ (t : TokenInput) (secret : String) (now : Nat) (e : JWTError),
      jwtDecode t secret now = .error e → verify_token t secret now = none) := by
  refine ⟨fun raw secret now => rfl, fun j secret now h => ?_, fun j secret now h => ?_,
    fun t secret now e h => ?_⟩
  · simp [verify_token, jwtDecode, h]
  · by_cases hs : j.secret = secret <;> simp [verify_token, jwtDecode, hs, h]
  · simp [verify_token, h]

/-- Witness for C4 on concrete malformed, wrong-secret and expired tokens. -/
theorem verify_token_fails_closed_witness :
    verify_token (.malformed "garbage") "k" 0 = none ∧
    verify_token (.wellFormed ⟨{ exp := 10 }, "k1"⟩) "k2" 0 = none ∧
    verify_token (.wellFormed ⟨{ exp := 10 }, "k"⟩) "k" 11 = none :=
  ⟨verify_token_fails_closed.1 "garbage" "k" 0,
   verify_token_fails_closed.2.1 ⟨{ exp := 10 }, "k1"⟩ "k2" 0 (by decide),
   verify_token_fails_closed.2.2.1 ⟨{ exp := 10 }, "k"⟩ "k" 11 (by decide)⟩

/-- C1: the `signin` endpoint applies its checks in order: a failed
`authenticate_user` yields the 401 invalid-credentials error (regardless of
any flags); for an authenticated user, `is_active = false` yields the
account-deactivated error; then `is_verified = false` yields the
email-not-verified error; otherwise signin succeeds with an access/refresh
token pair and `expires_in = ACCESS_TOKEN_EXPIRE_MINUTES * 60` seconds. -/
theorem signin_check_order (st : Store) (email password user_agent : String)
    (client_ip : Option String) (now : Nat) (s : Settings) :
    (authenticate_user st email password = none →
      signin st email password user_agent client_ip now s =
        .error ⟨401, .text "Invalid email or password"⟩) ∧
    (∀ u, authenticate_user st email password = some u → u.is_active = false →
      signin st email password user_agent client_ip now s =
        .error ⟨401, .text "Account is deactivated"⟩) ∧
    (∀ u, authenticate_user st email password = some u → u.is_active = true →
      u.is_verified = false →
      signin st email password user_agent client_ip now s =
        .error ⟨401, .text "Email not verified. Please check your email for verification link."⟩) ∧
    (∀ u, authenticate_user st email password = some u → u.is_active = true →
      u.is_verified = true →
      ∃ st2 resp, signin st email password user_agent client_ip now s = .ok (st2, resp) ∧
        resp.expires_in = s.ACCESS_TOKEN_EXPIRE_MINUTES * 60 ∧
        resp.access_token.payload.type = some "access" ∧
        resp.refresh_token.payload.type = some "refresh") := by
  refine ⟨fun h => ?_, fun u hu ha => ?_, fun u hu ha hv => ?_, fun u hu ha hv => ?_⟩
  · simp [signin, h]
  · simp [signin, hu, ha]
  · simp [signin, hu, ha, hv]
  · refine ⟨(create_session st u.id user_agent client_ip now s).1,
      { access_token := (create_session st u.id user_agent client_ip now s).2.2.access_token,
        refresh_token := (create_session st u.id user_agent client_ip now s).2.2.refresh_token,
        token_type := "bearer",
        expires_in := s.ACCESS_TOKEN_EXPIRE_MINUTES * 60,
        user := mkUserDetails u }, ?_, rfl, ?_, ?_⟩
    · simp [signin, hu, ha, hv]
    · simp [create_session, create_access_token]
    · simp [create_session, create_refresh_token]

/-- User fixture for the C1 witness: an active, verified user whose stored
hash matches the submitted password. -/
def uC1 : User :=
  { id := "u1", email := "alice@example.com",
    hashed_password := get_password_hash "Passw0rd!", is_verified := true }

/-- Witness for C1: on a one-user store the success branch fires and
`expires_in` is the configured TTL in seconds. -/
theorem signin_check_order_witness :
    ∃ st2 resp,
      signin { users := [uC1] } "alice@example.com" "Passw0rd!" "Mozilla Chrome Windows"
        none 5 sFix = .ok (st2, resp) ∧
      resp.expires_in = sFix.ACCESS_TOKEN_EXPIRE_MINUTES * 60 ∧
      resp.access_token.payload.type = some "access" ∧
      resp.refresh_token.payload.type = some "refresh" :=
  (signin_check_order { users := [uC1] } "alice@example.com" "Passw0rd!"
    "Mozilla Chrome Windows" none 5 sFix).2.2.2 uC1 (by decide) rfl rfl

/-- C2: the premium gate is a function of `(role, is_premium)`: every admin is
allowed regardless of `is_premium`; every premium user is allowed; every other
user is denied with the 402 payment-required error whose payload carries the
`upgrade_required` action hint and the `/payment` redirect target, with a
status distinct from the generic 401/403 authorization failures. -/
theorem premium_gate (u : UserDetailsResponse) :
    (u.role = "admin" → require_premium_access u = .ok u) ∧
    (u.is_premium = true → require_premium_access u = .ok u) ∧
    (u.role ≠ "admin" → u.is_premium = false →
      require_premium_access u = .error premiumAccessError) ∧
    premiumAccessError.status_code = 402 ∧
    premiumAccessError.detail =
      .payload "Premium access required" "upgrade_required" "/payment" ∧
    premiumAccessError.status_code ≠ 401 ∧ premiumAccessError.status_code ≠ 403 := by
  refine ⟨fun h => ?_, fun h => ?_, fun h hp => ?_, rfl, rfl, by decide, by decide⟩
  · simp [require_premium_access, h]
  · by_cases hr : u.role = "admin" <;> simp [require_premium_access, hr, h]
  · simp [require_premium_access, h, hp]

/-- Fixture: an admin without the premium flag. -/
def uAdminFix : UserDetailsResponse :=
  { id := "a1", email := "admin@x.com", first_name := "A", last_name := "D",
    role := "admin", is_active := true, is_verified := true,
    created_at := 0, updated_at := 0 }

/-- Fixture: a premium non-admin user. -/
def uPremFix : UserDetailsResponse :=
  { id := "p1", email := "prem@x.com", first_name := "P", last_name := "U",
    role := "user", is_active := true, is_verified := true, is_premium := true,
    created_at := 0, updated_at := 0 }

/-- Fixture: a non-premium non-admin user. -/
def uFreeFix : UserDetailsResponse :=
  { id := "f1", email := "free@x.com", first_name := "F", last_name := "U",
    role := "user", is_active := true, is_verified := true,
    created_at := 0, updated_at := 0 }

/-- Witness for C2 on the three concrete user shapes from the spec table. -/
theorem premium_gate_witness :
    require_premium_access uAdminFix = .ok uAdminFix ∧
    require_premium_access uPremFix = .ok uPremFix ∧
    require_premium_access uFreeFix = .error premiumAccessError :=
  ⟨(premium_gate uAdminFix).1 rfl, (premium_gate uPremFix).2.1 rfl,
   (premium_gate uFreeFix).2.2.1 (by decide) rfl⟩

/-- The per-session rewrite applied by `deactivate_all_sessions`. -/
def deactFlag (uid : String) (now : Nat) (sess : Session) : Session :=
  if sess.user_id == uid then { sess with is_active := false, updated_at := now }
  else sess

lemma deactivate_all_sessions_eq_map (st : Store) (uid : String) (now : Nat) :
    (deactivate_all_sessions st uid now).sessions =
      st.sessions.map (deactFlag uid now) := rfl

lemma deactFlag_all_inactive (l : List Session) (uid : String) (now : Nat) :
    ((l.map (deactFlag uid now)).filter (fun sess => sess.user_id == uid)).all
      (fun sess => !sess.is_active) = true := by
  induction l with
  | nil => rfl
  | cons x xs ih =>
    by_cases h : x.user_id == uid <;>
      simp [deactFlag, h, List.filter_cons] at ih ⊢ <;> exact ih

lemma deactFlag_other_users_unchanged (l : List Session) (uid : String) (now : Nat) :
    (l.map (deactFlag uid now)).filter (fun sess => !(sess.user_id == uid)) =
      l.filter (fun sess => !(sess.user_id == uid)) := by
  induction l with
  | nil => rfl
  | cons x xs ih =>
    by_cases h : x.user_id == uid <;>
      simp [deactFlag, h, List.filter_cons, ih]

/-- C6: `logout` flips `is_active` to false on every session record owned by
the user (the whole collection slice, not just the current login), leaves the
session records of all other users unchanged, and deletes nothing. -/
theorem logout_deactivates_all (st : Store) (uid : String) (now : Nat) :
    (((logout st uid now).1.sessions.filter (fun sess => sess.user_id == uid)).all
      (fun sess => !sess.is_active) = true) ∧
    ((logout st uid now).1.sessions.filter (fun sess => !(sess.user_id == uid)) =
      st.sessions.filter (fun sess => !(sess.user_id == uid))) ∧
    (logout st uid now).1.sessions.length = st.sessions.length := by
  refine ⟨?_, ?_, ?_⟩ <;>
    simp only [logout, deactivate_all_sessions_eq_map]
  · exact deactFlag_all_inactive st.sessions uid now
  · exact deactFlag_other_users_unchanged st.sessions uid now
  · exact List.length_map _ _

/-- Store fixture for the C9 witness: one registered user. -/
def stC9 : Store :=
  { users := [{ id := "u9", email := "real@x.com", hashed_password := "h" }] }

/-- C9: the `forgot_password` endpoint returns the identical success-shaped
response for every email, registered or not (no account enumeration); when
the email is registered it additionally dispatches exactly one reset email
whose embedded reset token expires `3600` seconds (1 hour) after issuance. -/
theorem forgot_password_no_enumeration (st : Store) (e1 e2 : String)
    (now : Nat) (s : Settings) :
    (forgot_password_endpoint st e1 now s).1 =
      (forgot_password_endpoint st e2 now s).1 ∧
    (forgot_password_endpoint st e1 now s).1 =
      ⟨"If the email exists, a password reset link has been sent"⟩ ∧
    ((st.users.find? (fun u => u.email == e1)).isSome →
      (forgot_password_endpoint st e1 now s).2 =
        [⟨e1, "Password Reset Request", some (create_reset_token e1 now s)⟩] ∧
      (create_reset_token e1 now s).payload.exp = now + 3600) := by
  refine ⟨rfl, rfl, fun h => ⟨?_, rfl⟩⟩
  simp only [forgot_password_endpoint, forgot_password]
  cases hf : st.users.find? (fun u => u.email == e1) with
  | none => rw [hf] at h; simp at h
  | some u => simp

/-- Witness for C9: an unknown and a registered email receive the same
response; the registered one triggers the reset email with the 1-hour token. -/
theorem forgot_password_no_enumeration_witness :
    (forgot_password_endpoint stC9 "nonexistent@x.com" 7 sFix).1 =
      (forgot_password_endpoint stC9 "real@x.com" 7 sFix).1 ∧
    (forgot_password_endpoint stC9 "real@x.com" 7 sFix).2 =
      [⟨"real@x.com", "Password Reset Request",
        some (create_reset_token "real@x.com" 7 sFix)⟩] ∧
    (create_reset_token "real@x.com" 7 sFix).payload.exp = 7 + 3600 :=
  ⟨(forgot_password_no_enumeration stC9 "nonexistent@x.com" "real@x.com" 7 sFix).1,
   ((forgot_password_no_enumeration stC9 "real@x.com" "real@x.com" 7 sFix).2.2
     (by decide)).1,
   ((forgot_password_no_enumeration stC9 "real@x.com" "real@x.com" 7 sFix).2.2
     (by decide)).2⟩

/-- User fixture for C5: the stored role (`admin`) differs from the `role`
claim inside the circulating refresh token. -/
def uC5 : User :=
  { id := "u5", email := "bob@x.com", hashed_password := "h", role := "admin",
    is_verified := true }

def stC5 : Store := { users := [uC5] }

/-- A well-formed refresh token for `uC5` carrying the stale role claim. -/
def tokC5 : Jwt :=
  ⟨{ user_id := some "u5", role := some "user", type := some "refresh",
     exp := 100 }, "refresh-secret"⟩

/-- C5 counterexample: with a valid refresh token whose `role` claim is
`"user"` while the re-fetched user document now has role `"admin"`, the
endpoint succeeds and the new pair carries role `"admin"`, not the role claim
of the original refresh token — refuting the claim that the decoded `role` of
the new pair matches the original. -/
theorem refresh_role_counterexample :
    tokC5.payload.role = some "user" ∧
    (refresh_token_endpoint stC5 (.wellFormed tokC5) 0 sFix).toOption.map
      (fun resp => resp.access_token.payload.role) = some (some "admin") ∧
    (refresh_token_endpoint stC5 (.wellFormed tokC5) 0 sFix).toOption.map
      (fun resp => resp.refresh_token.payload.role) = some (some "admin") ∧
    ¬ (some "admin" = (some "user" : Option String)) := by decide

/-- C5 amended: an expired, wrong-signature or wrong-type token yields the 401
invalid-token error; with a valid refresh token the endpoint rejects an absent
or inactive re-fetched user with the combined 401 user-not-found-or-inactive
error (including a token that carries no `user_id` claim, for which the
freshly minted ObjectId matches no stored user), and otherwise returns a
fresh pair whose `user_id` claim matches the original token and whose `role`
claim is the re-fetched user's current role. -/
theorem refresh_token_checks (st : Store) (tok : TokenInput) (now : Nat)
    (s : Settings) :
    (verify_token tok s.JWT_REFRESH_SECRET_KEY now = none →
      refresh_token_endpoint st tok now s =
        .error ⟨401, .text "Invalid refresh token"⟩) ∧
    (∀ j : Jwt, j.payload.exp < now →
      refresh_token_endpoint st (.wellFormed j) now s =
        .error ⟨401, .text "Invalid refresh token"⟩) ∧
    (∀ p, verify_token tok s.JWT_REFRESH_SECRET_KEY now = some p →
      p.type ≠ some "refresh" →
      refresh_token_endpoint st tok now s =
        .error ⟨401, .text "Invalid refresh token"⟩) ∧
    (∀ p, verify_token tok s.JWT_REFRESH_SECRET_KEY now = some p →
      p.type = some "refresh" → p.user_id = none →
      refresh_token_endpoint st tok now s =
        .error ⟨401, .text "User not found or inactive"⟩) ∧
    (∀ p uid, verify_token tok s.JWT_REFRESH_SECRET_KEY now = some p →
      p.type = some "refresh" → p.user_id = some uid →
      get_user_by_id st uid = none →
      refresh_token_endpoint st tok now s =
        .error ⟨401, .text "User not found or inactive"⟩) ∧
    (∀ p uid u, verify_token tok s.JWT_REFRESH_SECRET_KEY now = some p →
      p.type = some "refresh" → p.user_id = some uid →
      get_user_by_id st uid = some u → u.is_active = false →
      refresh_token_endpoint st tok now s =
        .error ⟨401, .text "User not found or inactive"⟩) ∧
    (∀ p uid u, verify_token tok s.JWT_REFRESH_SECRET_KEY now = some p →
      p.type = some "refresh" → p.user_id = some uid →
      get_user_by_id st uid = some u → u.is_active = true →
      ∃ resp, refresh_token_endpoint st tok now s = .ok resp ∧
        resp.access_token.payload.user_id = p.user_id ∧
        resp.refresh_token.payload.user_id = p.user_id ∧
        resp.access_token.payload.role = some u.role ∧
        resp.refresh_token.payload.role = some u.role ∧
        resp.access_token.payload.type = some "access" ∧
        resp.refresh_token.payload.type = some "refresh") := by
  have hid : ∀ (uid : String) (u : User), get_user_by_id st uid = some u →
      u.id = uid := by
    intro uid u h
    have h2 : st.users.find? (fun x => x.id == uid) = some u := h
    have h3 := List.find?_some (p := fun (x : User) => x.id == uid) h2
    exact eq_of_beq h3
  refine ⟨fun h => ?_, fun j hj => ?_, fun p hv ht => ?_, fun p hv ht hmiss => ?_,
    fun p uid hv ht hu hn => ?_,
    fun p uid u hv ht hu hf ha => ?_, fun p uid u hv ht hu hf ha => ?_⟩
  · simp [refresh_token_endpoint, h]
  · have hnone : verify_token (.wellFormed j) s.JWT_REFRESH_SECRET_KEY now = none := by
      by_cases hs : j.secret = s.JWT_REFRESH_SECRET_KEY <;>
        simp [verify_token, jwtDecode, hs, hj]
    simp [refresh_token_endpoint, hnone]
  · simp [refresh_token_endpoint, hv, ht]
  · simp [refresh_token_endpoint, hv, ht, hmiss]
  · simp [refresh_token_endpoint, hv, ht, hu, hn]
  · simp [refresh_token_endpoint, hv, ht, hu, hf, ha]
  · refine ⟨⟨create_access_token { user_id := some u.id, role := some u.role } none now s, create_refresh_token { user_id := some u.id, role := some u.role } now s, "bearer", s.ACCESS_TOKEN_EXPIRE_MINUTES * 60, mkUserDetails u⟩, ?_, ?_, ?_, rfl, rfl, rfl, rfl⟩
    · simp [refresh_token_endpoint, hv, ht, hu, hf, ha]
    · simp [create_access_token, hid uid u hf, hu]
    · simp [create_refresh_token, hid uid u hf, hu]

/-- Witness for the C5 amended theorem: the success branch on the concrete
store, showing the preserved `user_id` claim and the re-fetched role. -/
theorem refresh_token_checks_witness :
    ∃ resp, refresh_token_endpoint stC5 (.wellFormed tokC5) 0 sFix = .ok resp ∧
      resp.access_token.payload.user_id = tokC5.payload.user_id ∧
      resp.refresh_token.payload.user_id = tokC5.payload.user_id ∧
      resp.access_token.payload.role = some uC5.role ∧
      resp.refresh_token.payload.role = some uC5.role ∧
      resp.access_token.payload.type = some "access" ∧
      resp.refresh_token.payload.type = some "refresh" :=
  (refresh_token_checks stC5 (.wellFormed tokC5) 0 sFix).2.2.2.2.2.2
    tokC5.payload "u5" uC5 (by decide) rfl rfl (by decide) rfl

/-- The verification token stored on the C7 fixture user. -/
def jStoredC7 : Jwt :=
  ⟨{ email := some "carol@x.com", type := some "verification", exp := 200 },
   "access-secret"⟩

/-- A different, independently signed verification token for the same email
(note `exp` differs, so the two tokens are distinct values). -/
def jPresentedC7 : Jwt :=
  ⟨{ email := some "carol@x.com", type := some "verification", exp := 100 },
   "access-secret"⟩

def uC7 : User :=
  { id := "u7", email := "carol@x.com", hashed_password := "h",
    verification_token := some jStoredC7 }

def stC7 : Store := { users := [uC7] }

/-- C7 counterexample: the user record stores `jStoredC7`, yet presenting the
distinct token `jPresentedC7` (valid signature, `verification` type, same
email) is accepted — `verify_email` never compares the presented token with
the persisted `verification_token` field. -/
theorem verify_email_ignores_stored_token :
    uC7.verification_token = some jStoredC7 ∧
    ¬ (jPresentedC7 = jStoredC7) ∧
    ((verify_email stC7 (.wellFormed jPresentedC7) 0 sFix).toOption.isSome
      = true) := by decide

lemma find?_updateFirst (p : α → Bool) (f : α → α) (l : List α)
    (hf : ∀ a, p (f a) = p a) :
    (updateFirst p f l).find? p = (l.find? p).map f := by
  induction l with
  | nil => rfl
  | cons x xs ih =>
    by_cases h : p x
    · simp [updateFirst, h, List.find?_cons_of_pos, hf x]
    · simp [updateFirst, h, List.find?_cons_of_neg, ih]

/-- C7 amended: `verify_email` accepts exactly the tokens that carry a valid
signature under the access secret, the `verification` type, and an email that
maps to an existing, not-yet-verified user; the stored `verification_token`
field plays no part in acceptance, though a successful verification still sets
`is_verified` and clears the stored token fields on that user record. -/
theorem verify_email_accepts_any_signed_token (st : Store) (tok : TokenInput)
    (now : Nat) (s : Settings) (p : JwtPayload) (u : User)
    (hv : verify_token tok s.JWT_SECRET_KEY now = some p)
    (ht : p.type = some "verification")
    (hu : st.users.find? (fun x => some x.email == p.email) = some u)
    (hnv : u.is_verified = false) :
    ∃ st2, verify_email st tok now s = .ok st2 ∧
      (st2.users.find? (fun x => some x.email == p.email)).map
        (fun x => (x.is_verified, x.verification_token)) = some (true, none) ∧
      st2.sessions = st.sessions ∧ st2.tokens = st.tokens := by
  refine ⟨{ users := updateFirst (fun x => some x.email == p.email) (fun x => { x with is_verified := true, verification_token := none, verification_token_expires := none, updated_at := now }) st.users, sessions := st.sessions, tokens := st.tokens, nextId := st.nextId }, ?_, ?_, rfl, rfl⟩
  · simp [verify_email, hv, ht, hu, hnv]
  · have hfind := find?_updateFirst (fun (x : User) => some x.email == p.email)
      (fun x => { x with is_verified := true, verification_token := none, verification_token_expires := none, updated_at := now })
      st.users (fun a => rfl)
    simp [hfind, hu]

/-- Witness for the C7 amended theorem: the concrete fixture store accepts the
stored token and the record comes back verified with the token field cleared. -/
theorem verify_email_accepts_witness :
    ∃ st2, verify_email stC7 (.wellFormed jStoredC7) 0 sFix = .ok st2 ∧
      (st2.users.find? (fun x => some x.email == jStoredC7.payload.email)).map
        (fun x => (x.is_verified, x.verification_token)) = some (true, none) ∧
      st2.sessions = stC7.sessions ∧ st2.tokens = stC7.tokens :=
  verify_email_accepts_any_signed_token stC7 (.wellFormed jStoredC7) 0 sFix
    jStoredC7.payload uC7 (by decide) rfl (by decide) rfl

def sessC8 : Session :=
  { id := "s1", user_id := "u8",
    device_info := ⟨"ua", "Unknown", "Unknown", "Desktop"⟩ }

def stC8 : Store :=
  { users := [{ id := "u8", email := "dora@x.com", hashed_password := "h" }],
    sessions := [sessC8] }

/-- C8 counterexample: `delete_user_account` deletes the session records of
the user outright, so the set of session records for a user does shrink on a
reachable store — refuting the claim that no operation ever deletes sessions. -/
theorem session_deletion_counterexample :
    stC8.sessions.length = 1 ∧
    (delete_user_account stC8 "u8" 0).1.sessions.length = 0 := by decide

lemma length_updateFirst (p : α → Bool) (f : α → α) (l : List α) :
    (updateFirst p f l).length = l.length := by
  induction l with
  | nil => rfl
  | cons x xs ih => by_cases h : p x <;> simp [updateFirst, h, ih]

lemma map_updateFirst_invariant (p : α → Bool) (f : α → α) (g : α → β)
    (l : List α) (hg : ∀ a, g (f a) = g a) :
    (updateFirst p f l).map g = l.map g := by
  induction l with
  | nil => rfl
  | cons x xs ih => by_cases h : p x <;> simp [updateFirst, h, hg, ih]

/-- C8 amended: the operations that end sessions — `logout` /
`deactivate_all_sessions` and the per-device `deactivate_session` — only flip
`is_active`, preserving the number and the identities of the session records;
session records shrink only under the separate account-deletion operation,
which removes exactly the sessions of the deleted user and leaves the session
records of every other user unchanged. -/
theorem session_records_flagged_not_deleted (st : Store) (uid sid : String)
    (now : Nat) :
    (deactivate_all_sessions st uid now).sessions.length = st.sessions.length ∧
    (deactivate_all_sessions st uid now).sessions.map (fun sess => sess.id) =
      st.sessions.map (fun sess => sess.id) ∧
    (deactivate_session st sid uid now).1.sessions.length = st.sessions.length ∧
    (deactivate_session st sid uid now).1.sessions.map (fun sess => sess.id) =
      st.sessions.map (fun sess => sess.id) ∧
    (delete_user_account st uid now).1.sessions =
      st.sessions.filter (fun sess => !(sess.user_id == uid)) := by
  refine ⟨?_, ?_, ?_, ?_, ?_⟩
  · simp [deactivate_all_sessions_eq_map]
  · rw [deactivate_all_sessions_eq_map, List.map_map]
    apply List.map_congr_left
    intro a _
    by_cases h : a.user_id == uid <;> simp [deactFlag, Function.comp, h]
  · exact length_updateFirst _ _ _
  · exact map_updateFirst_invariant _ _ _ _ (fun a => rfl)
  · show ((deactivate_all_sessions st uid now).sessions).filter
        (fun sess => !(sess.user_id == uid)) =
      st.sessions.filter (fun sess => !(sess.user_id == uid))
    rw [deactivate_all_sessions_eq_map]
    exact deactFlag_other_users_unchanged st.sessions uid now

lemma length_filter_add_not (l : List α) (p : α → Bool) :
    (l.filter p).length + (l.filter (fun a => !p a)).length = l.length := by
  induction l with
  | nil => rfl
  | cons x xs ih =>
    by_cases h : p x <;> simp [List.filter_cons, h] <;> omega

lemma filter_key_length (l : List α) (key : α → String) (d : String) :
    (l.filter (fun a => key a == d)).length = (l.map key).count d := by
  rw [List.count_eq_countP, List.countP_map, ← List.countP_eq_length_filter]
  rfl

lemma sum_group_counts (l : List α) (key : α → String) :
    (((l.map key).dedup).map
      (fun d => (l.filter (fun a => key a == d)).length)).sum = l.length := by
  have h : ∀ d, (l.filter (fun a => key a == d)).length = (l.map key).count d :=
    filter_key_length l key
  simp only [h]
  rw [List.sum_map_count_dedup_eq_length, List.length_map]

/-- C10: the session-stats aggregate is internally consistent for every store
and user: `active + inactive = total`, `total` is the number of session
records owned by the user, and each of the per-device and per-browser count
breakdowns sums to `total`. -/
theorem session_stats_consistent (st : Store) (uid : String) :
    (get_session_stats st uid).active_sessions +
      (get_session_stats st uid).inactive_sessions =
      (get_session_stats st uid).total_sessions ∧
    (get_session_stats st uid).total_sessions =
      (st.sessions.filter (fun sess => sess.user_id == uid)).length ∧
    ((get_session_stats st uid).sessions_by_device.map Prod.snd).sum =
      (get_session_stats st uid).total_sessions ∧
    ((get_session_stats st uid).sessions_by_browser.map Prod.snd).sum =
      (get_session_stats st uid).total_sessions := by
  refine ⟨?_, rfl, ?_, ?_⟩
  · exact length_filter_add_not _ _
  · show ((((st.sessions.filter (fun sess => sess.user_id == uid)).map
        (fun sess => sess.device_info.device)).dedup.map
        (fun d => (d, ((st.sessions.filter (fun sess => sess.user_id == uid)).filter
          (fun sess => sess.device_info.device == d)).length))).map Prod.snd).sum =
      (st.sessions.filter (fun sess => sess.user_id == uid)).length
    rw [List.map_map]
    exact sum_group_counts _ _
  · show ((((st.sessions.filter (fun sess => sess.user_id == uid)).map
        (fun sess => sess.device_info.browser)).dedup.map
        (fun b => (b, ((st.sessions.filter (fun sess => sess.user_id == uid)).filter
          (fun sess => sess.device_info.browser == b)).length))).map Prod.snd).sum =
      (st.sessions.filter (fun sess => sess.user_id == uid)).length
    rw [List.map_map]
    exact sum_group_counts _ _

end Templater
